import Mathlib

/-!
Verification of the openroast backend core against its specification.

Each definition below is a shallow embedding of a function or data
structure of the repository (file and symbol named in its doc comment).
Python floats are modelled as rationals; every concrete input used in
the results keeps all intermediate values exactly representable in
binary64, so the rational computation coincides with the float
computation of the source. Python ints are modelled as `Int`/`Nat`.
-/

namespace OpenRoast

/-- Embedding of `check_bt_break` from
`src/backend/src/openroast/core/detection.py` (lines 10-46).
A list of exactly 6 samples is destructured; any other length returns
false, matching the `len(samples) != 6` guard. -/
def check_bt_break (samples : List ℚ) (d : ℚ) (offset : ℚ)
    (dpre_dpost_diff : ℚ) : Bool :=
  match samples with
  | [s0, s1, s2, s3, s4, s5] =>
    let dpre := ((s1 - s0) + (s2 - s1)) / 2
    let dpost := ((s4 - s3) + (s5 - s4)) / 2
    if |dpre - dpost| < dpre_dpost_diff then false
    else
      decide ((dpre - d - offset) > 0 ∧ 0 > (dpost + d + offset)) ||
      decide ((dpre + d + offset) < 0 ∧ 0 < (dpost - d - offset))
  | _ => false

/-- Embedding of `find_turning_point` from
`src/backend/src/openroast/core/detection.py` (lines 49-70). -/
def find_turning_point (bt_values : List ℚ) (charge_index : ℤ) : ℤ :=
  if charge_index < 0 ∨ charge_index ≥ bt_values.length then -1
  else
    let search := bt_values.drop charge_index.toNat
    match search with
    | [] => -1
    | x :: xs =>
      let min_val := xs.foldl min x
      charge_index + (search.indexOf min_val : ℤ)

/-- Session lifecycle states, from `SessionState` in
`src/backend/src/openroast/core/session.py` (lines 15-21). -/
inductive SessionState where
  | idle
  | monitoring
  | recording
  | finished
deriving DecidableEq

/-- The `.value` string of each `SessionState` enum member. -/
def SessionState.value : SessionState → String
  | .idle => "idle"
  | .monitoring => "monitoring"
  | .recording => "recording"
  | .finished => "finished"

/-- Embedding of `TemperaturePoint` from
`src/backend/src/openroast/models/profile.py`. -/
structure TemperaturePoint where
  timestamp_ms : ℚ
  et : ℚ
  bt : ℚ
deriving DecidableEq

/-- Embedding of `RoastEvent` from
`src/backend/src/openroast/models/profile.py`. -/
structure RoastEvent where
  event_type : String
  timestamp_ms : ℚ
  auto_detected : Bool
deriving DecidableEq

/-- Lookup in an association list modelling a Python dict
(`d.get(k)` / `k in d`): first entry with the key wins; the update
functions below keep keys unique. -/
def dictGet {α : Type} (l : List (String × α)) (k : String) : Option α :=
  match l with
  | [] => none
  | p :: rest => if p.1 = k then some p.2 else dictGet rest k

/-- Python dict assignment `d[k] = v`: overwrite the entry if the key is
present, else append it. -/
def dictSet {α : Type} (l : List (String × α)) (k : String) (v : α) :
    List (String × α) :=
  if (dictGet l k).isSome then
    l.map (fun p => if p.1 = k then (p.1, v) else p)
  else l ++ [(k, v)]

/-- Embedding of `RoastSession` from
`src/backend/src/openroast/core/session.py` (lines 24-147): the private
fields `_state`, `_data`, `_events`, `_controls`, `_machine_name`. -/
structure RoastSession where
  state : SessionState
  data : List TemperaturePoint
  events : List RoastEvent
  controls : List (String × List (ℚ × ℚ))
  machine_name : String
deriving DecidableEq

/-- A fresh `RoastSession(machine_name=...)` (its `__init__`). -/
def RoastSession.new (machine_name : String) : RoastSession :=
  { state := .idle, data := [], events := [], controls := [],
    machine_name := machine_name }

/-- Number of recorded temperature points (`data_points` property). -/
def RoastSession.data_points (s : RoastSession) : ℕ :=
  s.data.length

/-- Embedding of `RoastSession.start_monitoring` (session.py lines
49-54); a raised `ValueError` becomes `Except.error` with its message
(quotes around interpolated values are dropped from message texts). -/
def RoastSession.start_monitoring (s : RoastSession) :
    Except String RoastSession :=
  if s.state ≠ .idle ∧ s.state ≠ .finished then
    Except.error ("Cannot start monitoring from " ++ s.state.value)
  else Except.ok { s with state := .monitoring }

/-- Embedding of `RoastSession.start_recording` (session.py lines
56-64): clears stored samples, events and the control log. -/
def RoastSession.start_recording (s : RoastSession) :
    Except String RoastSession :=
  if s.state ≠ .monitoring then
    Except.error ("Cannot start recording from " ++ s.state.value)
  else Except.ok
    { s with
        state := .recording
        data := []
        events := []
        controls := [] }

/-- Embedding of `RoastSession.stop_monitoring` (session.py lines 66-71). -/
def RoastSession.stop_monitoring (s : RoastSession) :
    Except String RoastSession :=
  if s.state ≠ .monitoring then
    Except.error ("Cannot stop monitoring from " ++ s.state.value)
  else Except.ok { s with state := .idle }

/-- Embedding of `RoastSession.stop_recording` (session.py lines 73-78). -/
def RoastSession.stop_recording (s : RoastSession) :
    Except String RoastSession :=
  if s.state ≠ .recording then
    Except.error ("Cannot stop recording from " ++ s.state.value)
  else Except.ok { s with state := .finished }

/-- Embedding of `RoastSession.add_reading` (session.py lines 80-92).
Only the `recording` branch constructs a `TemperaturePoint`, whose
`timestamp_ms` field is declared `Field(ge=0)`
(`src/backend/src/openroast/models/profile.py` line 13): a negative
timestamp raises a pydantic `ValidationError` there (modelled as
`Except.error`, message abbreviated) and stores nothing. In every other
state no point is constructed, so nothing can raise. `et` and `bt` are
unconstrained. -/
def RoastSession.add_reading (s : RoastSession) (timestamp_ms et bt : ℚ) :
    Except String RoastSession :=
  if s.state = .recording then
    if timestamp_ms < 0 then
      Except.error "ValidationError: timestamp_ms must be greater than or equal to 0"
    else
      Except.ok { s with data := s.data ++ [{ timestamp_ms := timestamp_ms,
                                              et := et, bt := bt }] }
  else Except.ok s

/-- Embedding of `RoastSession.add_control_change` (session.py lines
94-109): accepted in `monitoring` or `recording`, appended to the
per-channel list (`setdefault` + `append`). -/
def RoastSession.add_control_change (s : RoastSession) (timestamp_ms : ℚ)
    (channel : String) (value : ℚ) : RoastSession :=
  if s.state = .monitoring ∨ s.state = .recording then
    let old := (dictGet s.controls channel).getD []
    { s with controls := dictSet s.controls channel (old ++ [(timestamp_ms, value)]) }
  else s

/-- Embedding of `RoastSession.add_event` (session.py lines 111-127):
rejected outside `recording`. -/
def RoastSession.add_event (s : RoastSession) (event_type : String)
    (timestamp_ms : ℚ) (auto_detected : Bool) : Except String RoastSession :=
  if s.state ≠ .recording then
    Except.error ("Cannot add events in " ++ s.state.value ++ " state")
  else Except.ok { s with events := s.events ++
    [{ event_type := event_type, timestamp_ms := timestamp_ms,
       auto_detected := auto_detected }] }

/-- Embedding of `ControlConfig` from
`src/backend/src/openroast/models/catalog.py` (lines 61-70). -/
structure ControlConfig where
  name : String
  channel : String
  command : String
  min : ℚ
  max : ℚ
  step : ℚ
  unit : String
deriving DecidableEq

/-- Embedding of `TemperatureMessage` from
`src/backend/src/openroast/models/ws_messages.py` (lines 79-88); the
constant `type:"temperature"` tag is omitted. -/
structure TemperatureMessage where
  timestamp_ms : ℚ
  et : ℚ
  bt : ℚ
  et_ror : ℚ
  bt_ror : ℚ
  extra_channels : List (String × ℚ)
deriving DecidableEq

/-- Embedding of `ControlAckMessage` from `ws_messages.py` (lines
136-144); the constant type tag is omitted. -/
structure ControlAckMessage where
  channel : String
  value : ℚ
  applied : Bool
  enabled : Bool
  message : String
deriving DecidableEq

/-- Embedding of `MachineInstance` from
`src/backend/src/openroast/core/manager.py` (lines 46-62), restricted to
the fields the verified operations touch: the driver handle, subscriber
set and task handle are validated through the transition system and the
outcome records below, and `machine` is represented by its name and
control list. -/
structure MachineInstance where
  machine_name : String
  controls : List ControlConfig
  session : RoastSession
  ring_buffer : List TemperatureMessage
  prev_et : Option ℚ
  prev_bt : Option ℚ
  start_time_ms : ℚ
  consecutive_errors : ℕ
  control_enabled : List (String × Bool)
deriving DecidableEq

/-- Embedding of `MachineManager._find_control` (manager.py lines
447-455): first control whose channel matches. -/
def find_control (controls : List ControlConfig) (channel : String) :
    Option ControlConfig :=
  controls.find? (fun c => c.channel == channel)

/-- Embedding of `MachineManager._scale_to_native` (manager.py lines
457-468). -/
def scale_to_native (control : ControlConfig) (normalized : ℚ) : ℚ :=
  control.min + normalized * (control.max - control.min)

/-- Outcome of `MachineManager.handle_control` (manager.py lines
168-226): the value handed to `driver.write_control` (if the call was
made), the acknowledgment, and the updated instance. -/
structure HandleControlResult where
  driver_write : Option (String × ℚ)
  ack : ControlAckMessage
  inst : Option MachineInstance
deriving DecidableEq

/-- Embedding of `MachineManager.handle_control` (manager.py lines
168-226). `inst` is the result of the `_instances` lookup; `driver_exc`
is `some message` when `driver.write_control` raises `ConnectionError`
or `NotImplementedError` (the write is still attempted, so
`driver_write` is populated); `now_ms` is the monotonic clock. -/
def handle_control (inst : Option MachineInstance) (channel : String)
    (value_normalized : ℚ) (enabled : Bool) (driver_exc : Option String)
    (now_ms : ℚ) : HandleControlResult :=
  match inst with
  | none =>
    { driver_write := none,
      ack := { channel := channel, value := value_normalized,
               applied := false, enabled := enabled,
               message := "Machine not connected" },
      inst := none }
  | some i =>
    match find_control i.controls channel with
    | none =>
      { driver_write := none,
        ack := { channel := channel, value := value_normalized,
                 applied := false, enabled := enabled,
                 message := "Unknown control channel: " ++ channel },
        inst := some i }
    | some control =>
      let i1 : MachineInstance :=
        { i with control_enabled := dictSet i.control_enabled channel enabled }
      let write_value : ℚ := if enabled then value_normalized else 0
      let native_value := scale_to_native control write_value
      match driver_exc with
      | none =>
        let elapsed_ms := now_ms - i1.start_time_ms
        let i2 : MachineInstance :=
          { i1 with session := i1.session.add_control_change elapsed_ms
                      channel native_value }
        { driver_write := some (channel, native_value),
          ack := { channel := channel, value := value_normalized,
                   applied := true, enabled := enabled, message := "" },
          inst := some i2 }
      | some e =>
        { driver_write := some (channel, native_value),
          ack := { channel := channel, value := value_normalized,
                   applied := false, enabled := enabled, message := e },
          inst := some i1 }

/-- Embedding of `CommandAction` from `ws_messages.py` (lines 57-64). -/
inductive CommandAction where
  | start_monitoring
  | stop_monitoring
  | start_recording
  | stop_recording
  | mark_event
  | reset
  | sync
deriving DecidableEq

/-- Result of `MachineManager.handle_session_command`: a `StateMessage`
(state, previous_state) or an `ErrorMessage` (code, message,
recoverable). -/
inductive SessionCmdOutcome where
  | stateMsg (state previous_state : SessionState)
  | errorMsg (code message : String) (recoverable : Bool)
deriving DecidableEq

/-- Embedding of `MachineManager.handle_session_command` (manager.py
lines 228-301). `inst` is the `_instances` lookup result; `now_ms` is
the monotonic clock; the returned instance replaces the stored one (on a
state-machine `ValueError` the instance is unchanged). The `sync` action
reaches the final `else` branch (`Unknown action`) because the live
endpoint intercepts it before this method. -/
def handle_session_command (inst : Option MachineInstance)
    (action : CommandAction) (event_type : Option String) (now_ms : ℚ) :
    Option MachineInstance × SessionCmdOutcome :=
  match inst with
  | none => (none, .errorMsg "MACHINE_NOT_FOUND" "Machine not connected" false)
  | some i =>
    let prev_state := i.session.state
    match action with
    | .start_monitoring =>
      match i.session.start_monitoring with
      | .error e => (some i, .errorMsg "INVALID_STATE_TRANSITION" e true)
      | .ok s2 =>
        (some
          { i with
              session := s2
              start_time_ms := now_ms
              prev_et := none
              prev_bt := none },
         .stateMsg s2.state prev_state)
    | .stop_monitoring =>
      match i.session.stop_monitoring with
      | .error e => (some i, .errorMsg "INVALID_STATE_TRANSITION" e true)
      | .ok s2 => (some { i with session := s2 }, .stateMsg s2.state prev_state)
    | .start_recording =>
      match i.session.start_recording with
      | .error e => (some i, .errorMsg "INVALID_STATE_TRANSITION" e true)
      | .ok s2 =>
        (some
          { i with
              session := s2
              start_time_ms := now_ms
              prev_et := none
              prev_bt := none },
         .stateMsg s2.state prev_state)
    | .stop_recording =>
      match i.session.stop_recording with
      | .error e => (some i, .errorMsg "INVALID_STATE_TRANSITION" e true)
      | .ok s2 => (some { i with session := s2 }, .stateMsg s2.state prev_state)
    | .mark_event =>
      match event_type with
      | none => (some i, .errorMsg "INVALID_MESSAGE"
                  "event_type required for mark_event" true)
      | some et =>
        let elapsed_ms := now_ms - i.start_time_ms
        match i.session.add_event et elapsed_ms false with
        | .error e => (some i, .errorMsg "INVALID_STATE_TRANSITION" e true)
        | .ok s2 => (some { i with session := s2 },
                     .stateMsg prev_state prev_state)
    | .reset =>
      (some
        { i with
            session := RoastSession.new i.machine_name
            start_time_ms := now_ms },
       .stateMsg .idle prev_state)
    | .sync => (some i, .errorMsg "INVALID_MESSAGE" "Unknown action: sync" true)

/-- Embedding of `ConnectionState` from
`src/backend/src/openroast/drivers/base.py` (lines 15-21). -/
inductive DriverState where
  | disconnected
  | connecting
  | connected
  | error
deriving DecidableEq

/-- What the live endpoint reads from a `MachineInstance` at attach
time: the driver state and human name (`instance.driver.state`,
`instance.driver.info().name`) and the session state
(`instance.session.state`). -/
structure AttachView where
  driver_state : DriverState
  driver_name : String
  session_state : SessionState
deriving DecidableEq

/-- The server-to-client frames the live endpoint sends at attach time
(`src/backend/src/openroast/ws/live.py`, lines 62-94). -/
inductive ServerFrame where
  | errorFrame (code message : String) (recoverable : Bool)
  | connectionFrame (driver_state : DriverState) (driver_name message : String)
  | stateFrame (state previous_state : SessionState)
deriving DecidableEq

/-- Embedding of the attach sequence of `live_data`
(`src/backend/src/openroast/ws/live.py`, lines 62-94): no instance sends
an error frame (the socket is then closed with code 4004); otherwise a
connection frame built with the constant `DriverStateValue.CONNECTED`
and the driver's human name, then a state frame with the current session
state (the observer is registered afterwards). -/
def live_attach_frames (inst : Option AttachView) : List ServerFrame :=
  match inst with
  | none => [.errorFrame "MACHINE_NOT_FOUND" "Machine is not connected" false]
  | some v =>
    [.connectionFrame DriverState.connected v.driver_name "Connected",
     .stateFrame v.session_state v.session_state]

/-- The value found under the `value` key of an inbound control frame:
a number, or something `float()` rejects. -/
inductive FrameVal where
  | num (q : ℚ)
  | nonNumeric
deriving DecidableEq

/-- An inbound `control` frame as the live endpoint reads it: the
optional `channel`, `value` and `enabled` keys of the JSON object. -/
structure ControlFrame where
  channel : Option String
  value : Option FrameVal
  enabled : Option Bool
deriving DecidableEq

/-- Outcome of `_handle_control` in `ws/live.py`: an error reply to the
caller, or the `manager.handle_control` invocation it makes (whose
acknowledgment is then sent back). -/
inductive ControlFrameOutcome where
  | reply (code message : String)
  | forwarded (machine_id channel : String) (value : ℚ) (enabled : Bool)
deriving DecidableEq

/-- Embedding of `_handle_control` from
`src/backend/src/openroast/ws/live.py` (lines 119-148): reads
`data.get("channel", "")` and `data.get("value", 0.0)`, validates the
value, and calls `manager.handle_control(machine_id, channel, value)` —
without passing `enabled`, whose keyword default in the manager is
`True`; the frame's own `enabled` field is never read. -/
def live_handle_control (machine_id : String) (frame : ControlFrame) :
    ControlFrameOutcome :=
  let channel := frame.channel.getD ""
  match frame.value.getD (FrameVal.num 0) with
  | .nonNumeric => .reply "INVALID_MESSAGE" "Invalid control value"
  | .num v =>
    if ¬ (0 ≤ v ∧ v ≤ 1) then
      .reply "INVALID_MESSAGE" "Control value must be 0.0-1.0"
    else .forwarded machine_id channel v true

/-- The manager instance map `_instances` (manager.py line 76), as an
association list keyed by machine id. -/
structure ManagerState where
  instances : List (String × MachineInstance)

/-- Embedding of `MachineManager.get_instance` (manager.py lines 83-85). -/
def get_instance (mgr : ManagerState) (machine_id : String) :
    Option MachineInstance :=
  dictGet mgr.instances machine_id

/-- Embedding of `MachineManager.get_sync_messages` (manager.py lines
303-324): empty for an unknown machine, else the ring-buffer entries
with `timestamp_ms > since_ms`. -/
def get_sync_messages (mgr : ManagerState) (machine_id : String)
    (since_ms : ℚ) : List TemperatureMessage :=
  match get_instance mgr machine_id with
  | none => []
  | some i => i.ring_buffer.filter (fun m => decide (m.timestamp_ms > since_ms))

/-- Maximum consecutive sampling errors (`_MAX_CONSECUTIVE_ERRORS`,
manager.py line 72). -/
def MAX_CONSECUTIVE_ERRORS : ℕ := 5

/-- Abstraction of the manager's sampling-loop lifecycle for one event
reactor: which machine ids hold an entry in `_instances` (with its
`consecutive_errors` counter) and which ids have a live (running, not
yet returned or cancelled) sampling-loop task. Keys are unique; the
position of a dict entry is immaterial to `dictGet`. -/
structure SamplerState where
  instances : List (String × ℕ)
  running : List String

/-- Python dict value overwrite used by the sampling loop for the
`consecutive_errors` counter of one machine. -/
def setErrors (l : List (String × ℕ)) (id : String) (c : ℕ) :
    List (String × ℕ) :=
  l.map (fun p => if p.1 = id then (p.1, c) else p)

/-- Removal of a machine id from the live-loop set. -/
def removeId (l : List String) (id : String) : List String :=
  l.filter (fun x => decide (x ≠ id))

/-- Removal of a machine entry from the instance map
(`self._instances.pop(machine_id, None)`). -/
def removeInst (l : List (String × ℕ)) (id : String) :
    List (String × ℕ) :=
  l.filter (fun p => decide (p.1 ≠ id))

/-- Transitions of the sampling-loop lifecycle, from manager.py:
`connect_machine` (lines 87-122) stores the instance and spawns the
loop; an already-connected id returns early (line 97-98);
`disconnect_machine` (lines 124-154) pops the instance and cancels the
loop; one successful loop iteration resets the error counter (line 376);
a `ConnectionError` iteration increments it (line 381) and, when the
count reaches `_MAX_CONSECUTIVE_ERRORS`, the loop returns (line 397)
without touching `_instances`; an unexpected exception also just returns
(lines 406-408). -/
inductive SamplerStep : SamplerState → SamplerState → Prop where
  | connect (s : SamplerState) (id : String)
      (h : dictGet s.instances id = none) :
      SamplerStep s ⟨(id, 0) :: s.instances, id :: s.running⟩
  | connect_existing (s : SamplerState) (id : String)
      (h : (dictGet s.instances id).isSome) :
      SamplerStep s s
  | disconnect (s : SamplerState) (id : String) :
      SamplerStep s ⟨removeInst s.instances id, removeId s.running id⟩
  | sample_ok (s : SamplerState) (id : String)
      (hr : id ∈ s.running) :
      SamplerStep s ⟨setErrors s.instances id 0, s.running⟩
  | sample_err (s : SamplerState) (id : String) (c : ℕ)
      (hr : id ∈ s.running) (hc : dictGet s.instances id = some c)
      (hlt : c + 1 < MAX_CONSECUTIVE_ERRORS) :
      SamplerStep s ⟨setErrors s.instances id (c + 1), s.running⟩
  | sample_err_exit (s : SamplerState) (id : String) (c : ℕ)
      (hr : id ∈ s.running) (hc : dictGet s.instances id = some c)
      (hge : MAX_CONSECUTIVE_ERRORS ≤ c + 1) :
      SamplerStep s ⟨setErrors s.instances id (c + 1), removeId s.running id⟩
  | crash (s : SamplerState) (id : String)
      (hr : id ∈ s.running) :
      SamplerStep s ⟨s.instances, removeId s.running id⟩

/-- States reachable from the empty manager. -/
def SamplerReachable (s : SamplerState) : Prop :=
  Relation.ReflTransGen SamplerStep ⟨[], []⟩ s

/-- Python `int()` applied to a float: truncation toward zero. -/
def pyInt (q : ℚ) : ℤ :=
  if q < 0 then -⌊-q⌋ else ⌊q⌋

/-- Python 3 `round()` to an integer: nearest integer, ties to the even
neighbour (banker's rounding). -/
def pyRound (q : ℚ) : ℤ :=
  let f := ⌊q⌋
  let r := q - (f : ℚ)
  if r < 1/2 then f
  else if 1/2 < r then f + 1
  else if f % 2 = 0 then f else f + 1

/-- The `ModbusDriver._controls` lookup
(`src/backend/src/openroast/drivers/modbus.py` line 76): the dict
comprehension over `machine.controls` keeps the LAST config of a
duplicated channel, hence the search over the reversed list. -/
def modbus_find_control (controls : List ControlConfig) (channel : String) :
    Option ControlConfig :=
  controls.reverse.find? (fun c => c.channel == channel)

/-- The exceptions `ModbusDriver.write_control` raises before reaching
the wire (modbus.py lines 157-181). -/
inductive DriverCallError where
  | connectionError (message : String)
  | notImplementedError (message : String)
deriving DecidableEq

/-- Embedding of `ModbusDriver.write_control` (modbus.py lines 157-181)
up to the `_execute_command` invocation: `connected` is whether
`_ensure_connected` passes (state CONNECTED with a live client); success
carries the command template and the `int(value)` passed to
`_execute_command` (quotes around interpolated names are dropped from
message texts). -/
def write_control (connected : Bool) (controls : List ControlConfig)
    (machine_name channel : String) (value : ℚ) :
    Except DriverCallError (String × ℤ) :=
  if ¬ connected then
    Except.error (.connectionError "Not connected to Modbus device")
  else
    match modbus_find_control controls channel with
    | none =>
      Except.error (.notImplementedError
        ("Control channel " ++ channel ++ " not configured for "
          ++ machine_name))
    | some control =>
      if control.command = "" then
        Except.error (.notImplementedError
          ("Control " ++ channel ++ " has no command template"))
      else Except.ok (control.command, pyInt value)

/-- Replacement of every occurrence of the two-character placeholder
`\x7b\x7d` in a character list, left to right. -/
def replaceBraces (s repl : List Char) : List Char :=
  match s with
  | [] => []
  | [c] => [c]
  | c :: c2 :: rest2 =>
    if c = '\x7b' ∧ c2 = '\x7d' then repl ++ replaceBraces rest2 repl
    else c :: replaceBraces (c2 :: rest2) repl

/-- The placeholder substitution of `ModbusDriver._execute_command`
(modbus.py line 301): `command_template.replace("\x7b\x7d", str(value))`,
written over character lists. -/
def substitute_value (command_template : String) (value : ℤ) : String :=
  String.mk (replaceBraces command_template.data (toString value).data)

/-- Embedding of `ModbusRegisterConfig` from
`src/backend/src/openroast/models/catalog.py` (lines 30-39). -/
structure ModbusRegisterConfig where
  address : ℕ
  code : ℕ
  device_id : ℕ
  divisor : ℕ
  mode : String
  is_float : Bool
  is_bcd : Bool
deriving DecidableEq

/-- The divisor-index lookup shared by the driver (`_DIVISORS`,
modbus.py line 31) and the simulator (`_DIVISOR_MULT`,
register_map.py line 26): index 0-3 maps to 1, 10, 100, 1000, and
`.get(..., 1)` yields 1 for any other index. -/
def divisorMult (divisor : ℕ) : ℕ :=
  match divisor with
  | 0 => 1
  | 1 => 10
  | 2 => 100
  | 3 => 1000
  | _ => 1

/-- Embedding of `_celsius_to_fahrenheit`
(register_map.py lines 34-36). -/
def celsius_to_fahrenheit (c : ℚ) : ℚ :=
  c * 9 / 5 + 32

/-- Embedding of `_fahrenheit_to_celsius` (modbus.py lines 53-55). -/
def fahrenheit_to_celsius (f : ℚ) : ℚ :=
  (f - 32) * 5 / 9

/-- The loop of `_int_to_bcd` (register_map.py lines 50-57): at the i-th
iteration the decimal digit `value % 10` lands at bit offset `4·i`, i.e.
is multiplied by `mult = 16^i`; since every digit is below 16 the `|=`
of disjoint nibbles is this sum. -/
def bcdEncodeGo (v mult : ℕ) : ℕ :=
  if h : v = 0 then 0
  else v % 10 * mult + bcdEncodeGo (v / 10) (mult * 16)
termination_by v
decreasing_by exact Nat.div_lt_self (Nat.pos_of_ne_zero h) (by norm_num)

/-- The loop of `_bcd_to_int` (modbus.py lines 43-50): `value & 0x0F` is
`v % 16`, `value >>= 4` is `v / 16`, and the decimal multiplier is
`10^i` at the i-th iteration. -/
def bcdDecodeGo (v mult : ℕ) : ℕ :=
  if h : v = 0 then 0
  else v % 16 * mult + bcdDecodeGo (v / 16) (mult * 10)
termination_by v
decreasing_by exact Nat.div_lt_self (Nat.pos_of_ne_zero h) (by norm_num)

/-- Embedding of `_int_to_bcd` (register_map.py lines 39-57): a negative
value is clamped to 0 before the digit loop. -/
def int_to_bcd (value : ℤ) : ℕ :=
  bcdEncodeGo (if value < 0 then 0 else value.toNat) 1

/-- Embedding of `_bcd_to_int` (modbus.py lines 34-50). -/
def bcd_to_int (value : ℕ) : ℕ :=
  bcdDecodeGo value 1

/-- Embedding of `encode_value` (register_map.py lines 60-104). The
`is_float` branch packs an IEEE-754 binary32 and is outside the claims'
scope, so it returns `none`; the integer and BCD branches are modelled
in full: Fahrenheit conversion, divisor multiply, Python `round`,
int16 clamp to `[-32768, 32767]` with two's-complement wrap of negative
values, or BCD digit packing. -/
def encode_value (value : ℚ) (config : ModbusRegisterConfig) :
    Option (List ℕ) :=
  let v1 := if config.mode = "F" then celsius_to_fahrenheit value else value
  let multiplier := divisorMult config.divisor
  let v2 := if 1 < multiplier then v1 * (multiplier : ℚ) else v1
  if config.is_float then none
  else if config.is_bcd then some [int_to_bcd (pyRound v2)]
  else
    let raw := pyRound v2
    let raw2 := max (-32768) (min 32767 raw)
    let raw3 := if raw2 < 0 then raw2 + 65536 else raw2
    some [raw3.toNat]

/-- Embedding of the decode section of `ModbusDriver._read_register`
(modbus.py lines 242-265), fed with the raw register list: BCD decode or
signed-int16 reinterpretation (`raw -= 0x10000` when `raw >= 0x8000`),
divisor divide, and Fahrenheit conversion. The `is_float` branch
(IEEE-754 unpack, using the word-order flag) is outside the claims'
scope and returns `none`. -/
def decode_registers (registers : List ℕ) (config : ModbusRegisterConfig) :
    Option ℚ :=
  if config.is_float then none
  else
    let value : ℚ :=
      if config.is_bcd then ((bcd_to_int (registers.headD 0) : ℕ) : ℚ)
      else
        let raw : ℤ := (registers.headD 0 : ℤ)
        let raw := if 32768 ≤ raw then raw - 65536 else raw
        (raw : ℚ)
    let divisor := divisorMult config.divisor
    let v2 := if 1 < divisor then value / (divisor : ℚ) else value
    some (if config.mode = "F" then fahrenheit_to_celsius v2 else v2)

/-- The native register-scale value of a quantity under a config: the
Fahrenheit-converted value times the divisor multiplier. `x` is
representable by a non-float config exactly when this value is an
integer in the int16 range (non-negative for BCD). -/
def encodedNative (config : ModbusRegisterConfig) (x : ℚ) : ℚ :=
  (if config.mode = "F" then celsius_to_fahrenheit x else x)
    * (divisorMult config.divisor : ℚ)

/-- The scaling prefix shared by both `encode_value` branches: the
Fahrenheit conversion and the conditional divisor multiply. -/
def encScaled (config : ModbusRegisterConfig) (value : ℚ) : ℚ :=
  let v1 := if config.mode = "F" then celsius_to_fahrenheit value else value
  let multiplier := divisorMult config.divisor
  if 1 < multiplier then v1 * (multiplier : ℚ) else v1

/-- The scaling suffix shared by both `decode_registers` branches: the
conditional divisor divide and the Fahrenheit conversion. -/
def decScale (config : ModbusRegisterConfig) (value : ℚ) : ℚ :=
  let divisor := divisorMult config.divisor
  let v2 := if 1 < divisor then value / (divisor : ℚ) else value
  if config.mode = "F" then fahrenheit_to_celsius v2 else v2

/-- The C1 example control: `{min=35, max=60}` on channel `gas`. -/
def c1Control : ControlConfig :=
  { name := "Gas", channel := "gas", command := "writeSingle(1,47,\x7b\x7d)",
    min := 35, max := 60, step := 1, unit := "" }

/-- A connected machine instance carrying the C1 example control. -/
def c1Inst : MachineInstance :=
  { machine_name := "Roaster", controls := [c1Control],
    session := RoastSession.new "Roaster", ring_buffer := [],
    prev_et := none, prev_bt := none, start_time_ms := 0,
    consecutive_errors := 0, control_enabled := [] }

/-- A stale buffered sample at t=1000 ms. -/
def c3Msg : TemperatureMessage :=
  { timestamp_ms := 1000, et := 210, bt := 150, et_ror := 0, bt_ror := 0,
    extra_channels := [] }

/-- An idle instance whose ring buffer still holds one stale sample. -/
def c3InstIdle : MachineInstance :=
  { machine_name := "Roaster", controls := [],
    session := RoastSession.new "Roaster", ring_buffer := [c3Msg],
    prev_et := some 210, prev_bt := some 150, start_time_ms := 0,
    consecutive_errors := 0, control_enabled := [] }

/-- A monitoring instance whose ring buffer holds one stale sample. -/
def c3InstMon : MachineInstance :=
  { c3InstIdle with session := { RoastSession.new "Roaster" with
      state := SessionState.monitoring } }

/-- A session in the idle state, for the C8 witness. -/
def c8SessionIdle : RoastSession :=
  RoastSession.new "M"

/-- A session in the recording state, for the C8 witness. -/
def c8SessionRec : RoastSession :=
  { RoastSession.new "M" with state := SessionState.recording }

/-- Buffered sample at t=1000 for the C7 witness. -/
def c7Msg1000 : TemperatureMessage :=
  { timestamp_ms := 1000, et := 200, bt := 140, et_ror := 0, bt_ror := 0,
    extra_channels := [] }

/-- Buffered sample at t=1500 for the C7 witness. -/
def c7Msg1500 : TemperatureMessage :=
  { timestamp_ms := 1500, et := 201, bt := 141, et_ror := 0, bt_ror := 0,
    extra_channels := [] }

/-- Buffered sample at t=2000 for the C7 witness. -/
def c7Msg2000 : TemperatureMessage :=
  { timestamp_ms := 2000, et := 202, bt := 142, et_ror := 0, bt_ror := 0,
    extra_channels := [] }

/-- Connected instance whose ring buffer holds samples at t=1000, 1500,
2000, for the C7 witness. -/
def c7Inst : MachineInstance :=
  { machine_name := "Roaster", controls := [],
    session := RoastSession.new "Roaster",
    ring_buffer := [c7Msg1000, c7Msg1500, c7Msg2000],
    prev_et := none, prev_bt := none, start_time_ms := 0,
    consecutive_errors := 0, control_enabled := [] }

/-- Manager holding the C7 witness instance under id `m1`. -/
def c7Mgr : ManagerState :=
  { instances := [("m1", c7Inst)] }

/-- An attach view whose driver is in the `error` state. -/
def c6ViewError : AttachView :=
  { driver_state := DriverState.error, driver_name := "Modbus TCP",
    session_state := SessionState.idle }

/-- The state reached after connecting machine `m` and then suffering
`MAX_CONSECUTIVE_ERRORS` consecutive connection errors: the instance
entry survives with counter 5, but no sampling loop runs. -/
def c2BadState : SamplerState :=
  { instances := [("m", 5)], running := [] }

/-- The C5 example control: channel `air`, template
`writeSingle(1,47,\x7b\x7d)`. -/
def c5Control : ControlConfig :=
  { name := "Air", channel := "air", command := "writeSingle(1,47,\x7b\x7d)",
    min := 0, max := 100, step := 1, unit := "" }

/-- The C9 witness config: Fahrenheit register with divisor index 1
(store tenths of °F), read as a signed int16 holding register. -/
def c9Config : ModbusRegisterConfig :=
  { address := 43, code := 3, device_id := 1, divisor := 1, mode := "F",
    is_float := false, is_bcd := false }

end OpenRoast

namespace OpenRoast

/-- C4 counterexample: the claim says `check_bt_break` on
`[200, 195, 190, 190, 195, 200]` with `diff_gate = 10.0` returns false,
but the gate test in the source rejects only when
`|dpre - dpost| < diff_gate` (strict), and here `|dpre - dpost| = 10`,
so the function returns true. -/
theorem c4_diff_gate_counterexample :
    check_bt_break [200, 195, 190, 190, 195, 200] 1 0 10 = true := by
  norm_num [check_bt_break]

/-- C4 amended: on samples `[200, 195, 190, 190, 195, 200]` with
`d = 1, offset = 0`, the function returns true for `diff_gate = 0` and
still true for `diff_gate = 10` (the gate rejects only strictly smaller
differences); a strictly larger gate such as `10.5` yields false. -/
theorem c4_bt_break_example :
    check_bt_break [200, 195, 190, 190, 195, 200] 1 0 0 = true ∧
    check_bt_break [200, 195, 190, 190, 195, 200] 1 0 10 = true ∧
    check_bt_break [200, 195, 190, 190, 195, 200] 1 0 (21/2) = false := by
  refine ⟨by norm_num [check_bt_break], by norm_num [check_bt_break],
    by norm_num [check_bt_break]⟩

/-- C1: at the claim input (control `min=35, max=60`, normalized `0.7`,
`enabled=false`) the code scales the substituted value 0 into the
control range, so the driver receives the range minimum 35.0, not 0.0 as
the claim, the method docstring (manager.py lines 179-180) and the spec
invariant state; the acknowledgment does have `enabled=false,
applied=true`. -/
theorem c1_disabled_control_receives_min :
    (handle_control (some c1Inst) "gas" (7/10) false none 1000).driver_write
      = some ("gas", 35) ∧
    (handle_control (some c1Inst) "gas" (7/10) false none 1000).driver_write
      ≠ some ("gas", 0) ∧
    (handle_control (some c1Inst) "gas" (7/10) false none 1000).ack.enabled
      = false ∧
    (handle_control (some c1Inst) "gas" (7/10) false none 1000).ack.applied
      = true := by
  refine ⟨?_, ?_, rfl, rfl⟩ <;>
    norm_num [handle_control, c1Inst, c1Control, find_control,
      scale_to_native, dictSet, dictGet, List.find?]

/-- C3: `start_monitoring` (and `start_recording`) succeed, advance the
state machine, reset the clock and `prev_*`, but leave the stale sample
in the ring buffer: the code never clears `instance.ring_buffer`,
although the repository's own tests
(`test_start_monitoring_clears_ring_buffer`,
`test_start_recording_clears_ring_buffer`) assert it becomes empty. -/
theorem c3_ring_buffer_not_cleared :
    ((handle_session_command (some c3InstIdle) CommandAction.start_monitoring
        none 2000).1.map MachineInstance.ring_buffer) = some [c3Msg] ∧
    ((handle_session_command (some c3InstMon) CommandAction.start_recording
        none 2000).1.map MachineInstance.ring_buffer) = some [c3Msg] ∧
    [c3Msg] ≠ ([] : List TemperatureMessage) ∧
    (handle_session_command (some c3InstIdle) CommandAction.start_monitoring
        none 2000).2 = SessionCmdOutcome.stateMsg SessionState.monitoring
          SessionState.idle := by
  refine ⟨rfl, rfl, by simp, rfl⟩

/-- C8 counterexample: in the `recording` state a negative timestamp
does not append one temperature point as the claim states — the
`TemperaturePoint` construction's `ge=0` validation raises a
`ValidationError` and nothing is stored. -/
theorem c8_negative_timestamp_counterexample :
    c8SessionRec.state = SessionState.recording ∧
    c8SessionRec.add_reading (-1) 210 155
      = Except.error
          "ValidationError: timestamp_ms must be greater than or equal to 0" :=
  ⟨rfl, rfl⟩

/-- C8 amended: outside `recording`, `add_reading` raises no error and
returns the session unchanged (no `TemperaturePoint` is constructed, so
its validation never runs); in `recording` with `timestamp_ms ≥ 0` it
appends exactly one temperature point; in `recording` with a negative
timestamp the pydantic `ge=0` validation raises and stores nothing. -/
theorem c8_add_reading_spec :
    ∀ (s : RoastSession) (ts et bt : ℚ),
      (s.state ≠ SessionState.recording →
        s.add_reading ts et bt = Except.ok s) ∧
      (s.state = SessionState.recording → 0 ≤ ts →
        (s.add_reading ts et bt).map RoastSession.data_points
          = Except.ok (s.data_points + 1)) ∧
      (s.state = SessionState.recording → ts < 0 →
        s.add_reading ts et bt
          = Except.error
              "ValidationError: timestamp_ms must be greater than or equal to 0") := by
  intro s ts et bt
  refine ⟨?_, ?_, ?_⟩
  · intro h
    simp [RoastSession.add_reading, h]
  · intro h hts
    simp [RoastSession.add_reading, h, not_lt.mpr hts, Except.map,
      RoastSession.data_points]
  · intro h hts
    simp [RoastSession.add_reading, h, hts]

/-- C8 witness: the amended theorem applied to concrete idle and
recording sessions at timestamp 0. -/
theorem c8_add_reading_spec_witness :
    c8SessionIdle.add_reading 0 210 155 = Except.ok c8SessionIdle ∧
    (c8SessionRec.add_reading 0 210 155).map RoastSession.data_points
      = Except.ok (c8SessionRec.data_points + 1) :=
  ⟨(c8_add_reading_spec c8SessionIdle 0 210 155).1
      (by simp [c8SessionIdle, RoastSession.new]),
   (c8_add_reading_spec c8SessionRec 0 210 155).2.1 rfl (by norm_num)⟩

/-- C7: `get_sync_messages` returns exactly the ring-buffer entries with
`timestamp_ms` strictly greater than `since_ms`, in buffer order (a
sublist of the buffer), and the empty list when the machine id has no
instance. -/
theorem c7_get_sync_messages_spec :
    ∀ (mgr : ManagerState) (machine_id : String) (since_ms : ℚ),
      (get_instance mgr machine_id = none →
        get_sync_messages mgr machine_id since_ms = []) ∧
      (∀ i, get_instance mgr machine_id = some i →
        (get_sync_messages mgr machine_id since_ms).Sublist i.ring_buffer ∧
        ∀ m, m ∈ get_sync_messages mgr machine_id since_ms ↔
          m ∈ i.ring_buffer ∧ since_ms < m.timestamp_ms) := by
  intro mgr machine_id since_ms
  constructor
  · intro h
    simp [get_sync_messages, h]
  · intro i h
    constructor
    · simp only [get_sync_messages, h]
      exact List.filter_sublist _
    · intro m
      simp [get_sync_messages, h, List.mem_filter]

/-- C7 witness: the theorem applied to the concrete manager with buffer
timestamps 1000, 1500, 2000 and `since_ms = 1200`. -/
theorem c7_get_sync_messages_witness :
    (get_sync_messages c7Mgr "m1" 1200).Sublist c7Inst.ring_buffer ∧
    (c7Msg1500 ∈ get_sync_messages c7Mgr "m1" 1200 ↔
      c7Msg1500 ∈ c7Inst.ring_buffer ∧ (1200 : ℚ) < c7Msg1500.timestamp_ms) :=
  ⟨((c7_get_sync_messages_spec c7Mgr "m1" 1200).2 c7Inst rfl).1,
   ((c7_get_sync_messages_spec c7Mgr "m1" 1200).2 c7Inst rfl).2 c7Msg1500⟩

/-- C6 counterexample: attaching to a machine whose driver state is
`error` still yields a first frame with `driver_state = connected`; the
endpoint hardcodes `DriverStateValue.CONNECTED` instead of reading the
driver's state, so the claim fails at this input. -/
theorem c6_connection_frame_counterexample :
    live_attach_frames (some c6ViewError)
      = [ServerFrame.connectionFrame DriverState.connected "Modbus TCP"
           "Connected",
         ServerFrame.stateFrame SessionState.idle SessionState.idle] ∧
    DriverState.connected ≠ c6ViewError.driver_state :=
  ⟨rfl, by simp [c6ViewError]⟩

/-- C6 amended: on attach to a machine that has an instance, the first
frame is a connection frame whose `driver_state` is always `connected`
(hardcoded, whatever the driver's actual state) with the driver's human
name, followed by a state frame carrying the current session state
twice. -/
theorem c6_attach_frames :
    ∀ v : AttachView,
      live_attach_frames (some v)
        = [ServerFrame.connectionFrame DriverState.connected v.driver_name
             "Connected",
           ServerFrame.stateFrame v.session_state v.session_state] := by
  intro v
  rfl

/-- C10: the live endpoint's handling of an inbound control frame does
not depend on the frame's `enabled` field, and whenever the frame is
forwarded to `manager.handle_control` the call carries `enabled = true`
(the manager-side keyword default), so an observer cannot disable a
control over the wire. -/
theorem c10_enabled_field_ignored :
    ∀ (machine_id : String) (channel : Option String)
      (value : Option FrameVal) (e1 e2 : Option Bool),
      live_handle_control machine_id ⟨channel, value, e1⟩
        = live_handle_control machine_id ⟨channel, value, e2⟩ ∧
      (∀ mid ch v en, live_handle_control machine_id ⟨channel, value, e1⟩
          = ControlFrameOutcome.forwarded mid ch v en → en = true) := by
  intro machine_id channel value e1 e2
  constructor
  · rfl
  · intro mid ch v en h
    unfold live_handle_control at h
    split at h
    · exact absurd h (by simp)
    · split at h
      · exact absurd h (by simp)
      · cases h
        rfl

/-- C10 witness: two frames identical but for `enabled` produce the same
outcome, and the concrete forwarded call carries `enabled = true`. -/
theorem c10_enabled_field_ignored_witness :
    live_handle_control "m1"
        ⟨some "burner", some (FrameVal.num (4/5)), some false⟩
      = live_handle_control "m1"
        ⟨some "burner", some (FrameVal.num (4/5)), some true⟩ ∧
    live_handle_control "m1"
        ⟨some "burner", some (FrameVal.num (4/5)), some false⟩
      = ControlFrameOutcome.forwarded "m1" "burner" (4/5) true :=
  ⟨(c10_enabled_field_ignored "m1" (some "burner")
      (some (FrameVal.num (4/5))) (some false) (some true)).1,
   by norm_num [live_handle_control]⟩

/-- Unfolding `dictGet` over a cons cell. -/
theorem dictGet_cons {α : Type} (k : String) (v : α)
    (rest : List (String × α)) (id : String) :
    dictGet ((k, v) :: rest) id = if k = id then some v else dictGet rest id :=
  rfl

/-- Unfolding `setErrors` over a cons cell. -/
theorem setErrors_cons (k : String) (v : ℕ) (rest : List (String × ℕ))
    (id0 : String) (c : ℕ) :
    setErrors ((k, v) :: rest) id0 c
      = (if k = id0 then (k, c) else (k, v)) :: setErrors rest id0 c := by
  by_cases h : k = id0 <;> simp [setErrors, h]

/-- Unfolding `removeInst` over a cons cell. -/
theorem removeInst_cons (k : String) (v : ℕ) (rest : List (String × ℕ))
    (id0 : String) :
    removeInst ((k, v) :: rest) id0
      = if k = id0 then removeInst rest id0
        else (k, v) :: removeInst rest id0 := by
  by_cases h : k = id0 <;> simp [removeInst, h]

/-- Overwriting an error counter never changes which keys are present. -/
theorem dictGet_setErrors_isSome (l : List (String × ℕ)) (id0 : String)
    (c : ℕ) (id : String) :
    (dictGet (setErrors l id0 c) id).isSome = (dictGet l id).isSome := by
  induction l with
  | nil => rfl
  | cons p rest ih =>
    obtain ⟨k, v⟩ := p
    rw [setErrors_cons]
    by_cases h0 : k = id0
    · rw [if_pos h0, dictGet_cons, dictGet_cons]
      by_cases hk : k = id
      · rw [if_pos hk, if_pos hk]
        rfl
      · rw [if_neg hk, if_neg hk]
        exact ih
    · rw [if_neg h0, dictGet_cons, dictGet_cons]
      by_cases hk : k = id
      · rw [if_pos hk, if_pos hk]
      · rw [if_neg hk, if_neg hk]
        exact ih

/-- Removing one machine's entry leaves the other lookups unchanged. -/
theorem dictGet_removeInst (l : List (String × ℕ)) (id0 id : String)
    (h : id ≠ id0) :
    dictGet (removeInst l id0) id = dictGet l id := by
  induction l with
  | nil => rfl
  | cons p rest ih =>
    obtain ⟨k, v⟩ := p
    rw [removeInst_cons]
    by_cases h0 : k = id0
    · have hne : ¬ k = id := by
        intro hh
        exact h (hh ▸ h0)
      rw [if_pos h0, dictGet_cons, if_neg hne]
      exact ih
    · rw [if_neg h0, dictGet_cons, dictGet_cons]
      by_cases hk : k = id
      · rw [if_pos hk, if_pos hk]
      · rw [if_neg hk, if_neg hk]
        exact ih

/-- Membership after removal from the live-loop set. -/
theorem mem_removeId (l : List String) (id0 id : String) :
    id ∈ removeId l id0 ↔ id ∈ l ∧ id ≠ id0 := by
  simp [removeId, List.mem_filter]

/-- One sampling-lifecycle step preserves "every live loop's machine is
in the instance set". -/
theorem samplerStep_preserves_inclusion (s t : SamplerState)
    (step : SamplerStep s t)
    (ih : ∀ id, id ∈ s.running → (dictGet s.instances id).isSome) :
    ∀ id, id ∈ t.running → (dictGet t.instances id).isSome := by
  cases step with
  | connect id0 h0 =>
    intro id hmem
    rcases List.mem_cons.mp hmem with heq | hmem0
    · subst heq
      simp [dictGet_cons]
    · rw [dictGet_cons]
      by_cases hid : id0 = id
      · rw [if_pos hid]
        rfl
      · rw [if_neg hid]
        exact ih id hmem0
  | connect_existing id0 h0 =>
    exact ih
  | disconnect id0 =>
    intro id hmem
    have hm := (mem_removeId s.running id0 id).mp hmem
    rw [dictGet_removeInst s.instances id0 id hm.2]
    exact ih id hm.1
  | sample_ok id0 hr =>
    intro id hmem
    rw [dictGet_setErrors_isSome]
    exact ih id hmem
  | sample_err id0 c hr hc hlt =>
    intro id hmem
    rw [dictGet_setErrors_isSome]
    exact ih id hmem
  | sample_err_exit id0 c hr hc hge =>
    intro id hmem
    have hm := (mem_removeId s.running id0 id).mp hmem
    rw [dictGet_setErrors_isSome]
    exact ih id hm.1
  | crash id0 hr =>
    intro id hmem
    exact ih id ((mem_removeId s.running id0 id).mp hmem).1

/-- C2 amended (the invariant direction that holds): in every reachable
manager state, a machine with a live sampling-loop task is in the
instance set; `connect_machine` and `disconnect_machine` preserve the
full biconditional, but the loop's error exit does not (see the
counterexample), so only this inclusion is invariant. -/
theorem c2_running_machine_has_instance :
    ∀ s : SamplerState, SamplerReachable s →
      ∀ id, id ∈ s.running → (dictGet s.instances id).isSome := by
  intro s h
  induction h with
  | refl =>
    intro id h
    simp at h
  | tail _ step ih =>
    exact samplerStep_preserves_inclusion _ _ step ih

/-- C2 counterexample: the claimed biconditional is not preserved by the
sampling loop's `MAX_CONSECUTIVE_ERRORS` exit. After `connect` and five
consecutive connection errors the loop has returned, yet the machine is
still in the manager's instance set: a reachable state has the machine
in `_instances` with no live sampling loop. -/
theorem c2_error_exit_counterexample :
    SamplerReachable c2BadState ∧
    (dictGet c2BadState.instances "m").isSome ∧
    "m" ∉ c2BadState.running := by
  refine ⟨?_, rfl, by simp [c2BadState]⟩
  have h1 : SamplerStep ⟨[], []⟩ ⟨[("m", 0)], ["m"]⟩ :=
    SamplerStep.connect ⟨[], []⟩ "m" rfl
  have h2 : SamplerStep ⟨[("m", 0)], ["m"]⟩ ⟨[("m", 1)], ["m"]⟩ :=
    SamplerStep.sample_err ⟨[("m", 0)], ["m"]⟩ "m" 0 (by simp) rfl
      (by norm_num [MAX_CONSECUTIVE_ERRORS])
  have h3 : SamplerStep ⟨[("m", 1)], ["m"]⟩ ⟨[("m", 2)], ["m"]⟩ :=
    SamplerStep.sample_err ⟨[("m", 1)], ["m"]⟩ "m" 1 (by simp) rfl
      (by norm_num [MAX_CONSECUTIVE_ERRORS])
  have h4 : SamplerStep ⟨[("m", 2)], ["m"]⟩ ⟨[("m", 3)], ["m"]⟩ :=
    SamplerStep.sample_err ⟨[("m", 2)], ["m"]⟩ "m" 2 (by simp) rfl
      (by norm_num [MAX_CONSECUTIVE_ERRORS])
  have h5 : SamplerStep ⟨[("m", 3)], ["m"]⟩ ⟨[("m", 4)], ["m"]⟩ :=
    SamplerStep.sample_err ⟨[("m", 3)], ["m"]⟩ "m" 3 (by simp) rfl
      (by norm_num [MAX_CONSECUTIVE_ERRORS])
  have h6 : SamplerStep ⟨[("m", 4)], ["m"]⟩ c2BadState :=
    SamplerStep.sample_err_exit ⟨[("m", 4)], ["m"]⟩ "m" 4 (by simp) rfl
      (by norm_num [MAX_CONSECUTIVE_ERRORS])
  exact .tail (.tail (.tail (.tail (.tail (.single h1) h2) h3) h4) h5) h6

/-- C2 witness for the amended theorem: applied to the concrete
reachable state right after `connect m`, where the loop is live and the
instance present. -/
theorem c2_running_machine_has_instance_witness :
    (dictGet (SamplerState.mk [("m", 0)] ["m"]).instances "m").isSome :=
  c2_running_machine_has_instance ⟨[("m", 0)], ["m"]⟩
    (Relation.ReflTransGen.single (SamplerStep.connect ⟨[], []⟩ "m" rfl))
    "m" (by simp)

/-- C5 counterexample: at native value 47.5 the driver substitutes
`int(47.5) = 47`, while the claim's `round(47.5) = 48`: the executed
command string differs from the one the claim predicts. -/
theorem c5_truncation_counterexample :
    write_control true [c5Control] "Roaster" "air" (95/2)
      = Except.ok ("writeSingle(1,47,\x7b\x7d)", 47) ∧
    pyRound (95/2) = 48 ∧
    substitute_value "writeSingle(1,47,\x7b\x7d)" 47
      ≠ substitute_value "writeSingle(1,47,\x7b\x7d)" 48 := by
  refine ⟨?_, ?_, ?_⟩
  · norm_num [write_control, modbus_find_control, c5Control, pyInt]
    intro h
    exact absurd h (by decide)
  · norm_num [pyRound]
  · decide

/-- C5 amended: `write_control` fails with a connection error when not
connected, with a "not supported" (`NotImplementedError`) error when the
channel is unknown or its control has no command template, and otherwise
executes the control's command template with `int(native_value)` —
truncation toward zero, not `round` — substituted for the placeholder. -/
theorem c5_write_control_spec :
    ∀ (connected : Bool) (controls : List ControlConfig)
      (machine_name channel : String) (value : ℚ),
      (connected = false →
        write_control connected controls machine_name channel value
          = Except.error
            (DriverCallError.connectionError "Not connected to Modbus device")) ∧
      (connected = true → modbus_find_control controls channel = none →
        write_control connected controls machine_name channel value
          = Except.error
            (DriverCallError.notImplementedError
              ("Control channel " ++ channel ++ " not configured for "
                ++ machine_name))) ∧
      (∀ control, connected = true →
        modbus_find_control controls channel = some control →
        control.command = "" →
        write_control connected controls machine_name channel value
          = Except.error
            (DriverCallError.notImplementedError
              ("Control " ++ channel ++ " has no command template"))) ∧
      (∀ control, connected = true →
        modbus_find_control controls channel = some control →
        control.command ≠ "" →
        write_control connected controls machine_name channel value
          = Except.ok (control.command, pyInt value)) := by
  intro connected controls machine_name channel value
  refine ⟨?_, ?_, ?_, ?_⟩
  · intro h
    simp [write_control, h]
  · intro h hfind
    simp [write_control, h, hfind]
  · intro control h hfind hcmd
    simp [write_control, h, hfind, hcmd]
  · intro control h hfind hcmd
    simp [write_control, h, hfind, hcmd]

/-- C5 witness for the amended theorem: the success branch applied to
the concrete `air` control at native value 47.5. -/
theorem c5_write_control_witness :
    write_control true [c5Control] "Roaster" "air" (95/2)
      = Except.ok (c5Control.command, pyInt (95/2)) :=
  (c5_write_control_spec true [c5Control] "Roaster" "air" (95/2)).2.2.2
    c5Control rfl rfl (by decide)

/-- The divisor multiplier is at least 1 for every index. -/
theorem divisorMult_pos (d : ℕ) : 1 ≤ divisorMult d := by
  unfold divisorMult
  split <;> norm_num

/-- Python round of an integer-valued rational is that integer. -/
theorem pyRound_intCast (k : ℤ) : pyRound (k : ℚ) = k := by
  unfold pyRound
  simp only [Int.floor_intCast, sub_self]
  norm_num

/-- Unfolding equation of the BCD packing loop. -/
theorem bcdEncodeGo_unfold (v m : ℕ) :
    bcdEncodeGo v m
      = if v = 0 then 0 else v % 10 * m + bcdEncodeGo (v / 10) (m * 16) := by
  rw [bcdEncodeGo]
  simp [dite_eq_ite]

/-- Unfolding equation of the BCD unpacking loop. -/
theorem bcdDecodeGo_unfold (v m : ℕ) :
    bcdDecodeGo v m
      = if v = 0 then 0 else v % 16 * m + bcdDecodeGo (v / 16) (m * 10) := by
  rw [bcdDecodeGo]
  simp [dite_eq_ite]

/-- The BCD digit-packing loop is linear in its accumulator weight. -/
theorem bcdEncodeGo_mult (v : ℕ) :
    ∀ m : ℕ, bcdEncodeGo v m = m * bcdEncodeGo v 1 := by
  induction v using Nat.strong_induction_on with
  | _ v ih =>
    intro m
    by_cases h : v = 0
    · subst h
      simp [bcdEncodeGo_unfold]
    · have hlt : v / 10 < v := Nat.div_lt_self (Nat.pos_of_ne_zero h) (by norm_num)
      rw [bcdEncodeGo_unfold v m, bcdEncodeGo_unfold v 1, if_neg h, if_neg h,
        ih (v / 10) hlt (m * 16), ih (v / 10) hlt (1 * 16)]
      ring

/-- The BCD digit-unpacking loop is linear in its accumulator weight. -/
theorem bcdDecodeGo_mult (v : ℕ) :
    ∀ m : ℕ, bcdDecodeGo v m = m * bcdDecodeGo v 1 := by
  induction v using Nat.strong_induction_on with
  | _ v ih =>
    intro m
    by_cases h : v = 0
    · subst h
      simp [bcdDecodeGo_unfold]
    · have hlt : v / 16 < v := Nat.div_lt_self (Nat.pos_of_ne_zero h) (by norm_num)
      rw [bcdDecodeGo_unfold v m, bcdDecodeGo_unfold v 1, if_neg h, if_neg h,
        ih (v / 16) hlt (m * 10), ih (v / 16) hlt (1 * 10)]
      ring

/-- A nonzero value packs to a nonzero BCD word. -/
theorem bcdEncodeGo_ne_zero (v : ℕ) :
    v ≠ 0 → bcdEncodeGo v 1 ≠ 0 := by
  induction v using Nat.strong_induction_on with
  | _ v ih =>
    intro h
    have hlt : v / 10 < v := Nat.div_lt_self (Nat.pos_of_ne_zero h) (by norm_num)
    rw [bcdEncodeGo_unfold v 1, if_neg h]
    by_cases hm : v % 10 = 0
    · have hv10 : v / 10 ≠ 0 := by
        intro hz
        apply h
        omega
      have hne := ih (v / 10) hlt hv10
      rw [bcdEncodeGo_mult (v / 10) 16]
      simp [hm]
      omega
    · have : bcdEncodeGo (v / 10) 16 = 16 * bcdEncodeGo (v / 10) 1 :=
        bcdEncodeGo_mult (v / 10) 16
      omega

/-- Unpacking a packed BCD word recovers the value: the driver's
`_bcd_to_int` inverts the simulator's `_int_to_bcd` digit loop. -/
theorem bcd_roundtrip (v : ℕ) :
    bcdDecodeGo (bcdEncodeGo v 1) 1 = v := by
  induction v using Nat.strong_induction_on with
  | _ v ih =>
    by_cases h : v = 0
    · subst h
      rw [bcdEncodeGo_unfold]
      simp [bcdDecodeGo_unfold]
    · have hlt : v / 10 < v := Nat.div_lt_self (Nat.pos_of_ne_zero h) (by norm_num)
      have hE : bcdEncodeGo v 1 = v % 10 + 16 * bcdEncodeGo (v / 10) 1 := by
        rw [bcdEncodeGo_unfold v 1, if_neg h, bcdEncodeGo_mult (v / 10) (1 * 16)]
        ring
      have hEne : bcdEncodeGo v 1 ≠ 0 := bcdEncodeGo_ne_zero v h
      have hmod : bcdEncodeGo v 1 % 16 = v % 10 := by
        rw [hE, Nat.add_mul_mod_self_left]
        exact Nat.mod_eq_of_lt (by omega)
      have hdiv : bcdEncodeGo v 1 / 16 = bcdEncodeGo (v / 10) 1 := by
        rw [hE, Nat.add_mul_div_left _ _ (by norm_num : 0 < 16)]
        rw [Nat.div_eq_of_lt (by omega : v % 10 < 16)]
        omega
      rw [bcdDecodeGo_unfold (bcdEncodeGo v 1) 1, if_neg hEne,
        bcdDecodeGo_mult (bcdEncodeGo v 1 / 16) (1 * 10), hmod, hdiv,
        ih (v / 10) hlt]
      omega

/-- The encode-side scaling prefix computes the native value. -/
theorem encScaled_eq_encodedNative (config : ModbusRegisterConfig) (x : ℚ) :
    encScaled config x = encodedNative config x := by
  unfold encScaled encodedNative
  by_cases h1 : 1 < divisorMult config.divisor
  · simp [h1]
  · have hm : divisorMult config.divisor = 1 :=
      le_antisymm (not_lt.mp h1) (divisorMult_pos _)
    simp [h1, hm]

/-- The decode-side scaling suffix inverts the native scaling. -/
theorem decScale_encodedNative (config : ModbusRegisterConfig) (x : ℚ)
    (k : ℤ) (hk : encodedNative config x = (k : ℚ)) :
    decScale config (k : ℚ) = x := by
  simp only [decScale]
  unfold encodedNative at hk
  have hm1 : 1 ≤ divisorMult config.divisor := divisorMult_pos _
  have hm0 : ((divisorMult config.divisor : ℕ) : ℚ) ≠ 0 := by
    have : (0 : ℚ) < ((divisorMult config.divisor : ℕ) : ℚ) := by
      exact_mod_cast Nat.lt_of_lt_of_le Nat.zero_lt_one hm1
    exact ne_of_gt this
  have hw : (if 1 < divisorMult config.divisor
      then (k : ℚ) / ((divisorMult config.divisor : ℕ) : ℚ) else (k : ℚ))
      = (if config.mode = "F" then celsius_to_fahrenheit x else x) := by
    by_cases h1 : 1 < divisorMult config.divisor
    · rw [if_pos h1, ← hk, mul_div_cancel_right₀ _ hm0]
    · have hm : divisorMult config.divisor = 1 :=
        le_antisymm (not_lt.mp h1) hm1
      rw [if_neg h1, ← hk, hm]
      push_cast
      ring
  rw [hw]
  by_cases hmode : config.mode = "F"
  · rw [if_pos hmode, if_pos hmode]
    unfold fahrenheit_to_celsius celsius_to_fahrenheit
    ring
  · rw [if_neg hmode, if_neg hmode]

/-- The BCD branch of `encode_value`, spelled out. -/
theorem encode_value_bcd (v : ℚ) (config : ModbusRegisterConfig)
    (hf : config.is_float = false) (hb : config.is_bcd = true) :
    encode_value v config = some [int_to_bcd (pyRound (encScaled config v))] := by
  simp [encode_value, encScaled, hf, hb]

/-- The signed-int16 branch of `encode_value`, spelled out. -/
theorem encode_value_int16 (v : ℚ) (config : ModbusRegisterConfig)
    (hf : config.is_float = false) (hb : config.is_bcd = false) :
    encode_value v config =
      some [(if max (-32768) (min 32767 (pyRound (encScaled config v))) < 0
             then max (-32768) (min 32767 (pyRound (encScaled config v))) + 65536
             else max (-32768) (min 32767 (pyRound (encScaled config v)))).toNat] := by
  simp [encode_value, encScaled, hf, hb]

/-- The BCD branch of `decode_registers`, spelled out. -/
theorem decode_registers_bcd (registers : List ℕ)
    (config : ModbusRegisterConfig)
    (hf : config.is_float = false) (hb : config.is_bcd = true) :
    decode_registers registers config
      = some (decScale config ((bcd_to_int (registers.headD 0) : ℕ) : ℚ)) := by
  simp [decode_registers, decScale, hf, hb]

/-- The signed-int16 branch of `decode_registers`, spelled out. -/
theorem decode_registers_int16 (registers : List ℕ)
    (config : ModbusRegisterConfig)
    (hf : config.is_float = false) (hb : config.is_bcd = false) :
    decode_registers registers config
      = some (decScale config
          (((if 32768 ≤ ((registers.headD 0 : ℕ) : ℤ)
             then ((registers.headD 0 : ℕ) : ℤ) - 65536
             else ((registers.headD 0 : ℕ) : ℤ)) : ℤ) : ℚ)) := by
  simp [decode_registers, decScale, hf, hb]

/-- C9: for every non-float register config and every value `x`
representable by it — the natively scaled value is an integer `k` in the
int16 range, non-negative when the config is BCD — decoding the
register list produced by `encode_value` with the driver's decode rules
yields `x` exactly. -/
theorem c9_encode_decode_roundtrip :
    ∀ (config : ModbusRegisterConfig) (x : ℚ) (k : ℤ) (regs : List ℕ),
      config.is_float = false →
      encodedNative config x = (k : ℚ) →
      -32768 ≤ k → k ≤ 32767 →
      (config.is_bcd = true → 0 ≤ k) →
      encode_value x config = some regs →
      decode_registers regs config = some x := by
  intro config x k regs hf hk hlo hhi hbcd henc
  have hval : encScaled config x = (k : ℚ) := by
    rw [encScaled_eq_encodedNative]
    exact hk
  have hpr : pyRound (encScaled config x) = k := by
    rw [hval]
    exact pyRound_intCast k
  by_cases hb : config.is_bcd = true
  · have hk0 : 0 ≤ k := hbcd hb
    rw [encode_value_bcd x config hf hb, hpr] at henc
    injection henc with hregs
    subst hregs
    rw [decode_registers_bcd _ config hf hb]
    have hbcdrt : bcd_to_int (int_to_bcd k) = k.toNat := by
      unfold int_to_bcd bcd_to_int
      rw [if_neg (not_lt.mpr hk0)]
      exact bcd_roundtrip k.toNat
    have hcast : ((k.toNat : ℕ) : ℚ) = (k : ℚ) := by
      rw [← Int.cast_natCast, Int.toNat_of_nonneg hk0]
    simp only [List.headD_cons, hbcdrt, hcast]
    rw [decScale_encodedNative config x k hk]
  · have hbF : config.is_bcd = false := by
      revert hb
      cases config.is_bcd <;> simp
    rw [encode_value_int16 x config hf hbF, hpr] at henc
    have hclamp : max (-32768) (min 32767 k) = k := by
      rw [min_eq_right hhi, max_eq_right hlo]
    rw [hclamp] at henc
    rw [decode_registers_int16 _ config hf hbF]
    by_cases hneg : k < 0
    · rw [if_pos hneg] at henc
      injection henc with hregs
      subst hregs
      have h1 : (((k + 65536).toNat : ℕ) : ℤ) = k + 65536 :=
        Int.toNat_of_nonneg (by omega)
      simp only [List.headD_cons, h1, if_pos (by omega : (32768 : ℤ) ≤ k + 65536)]
      have h2 : k + 65536 - 65536 = k := by ring
      rw [h2, decScale_encodedNative config x k hk]
    · rw [if_neg hneg] at henc
      injection henc with hregs
      subst hregs
      have h1 : ((k.toNat : ℕ) : ℤ) = k :=
        Int.toNat_of_nonneg (not_lt.mp hneg)
      simp only [List.headD_cons, h1, if_neg (by omega : ¬ (32768 : ℤ) ≤ k)]
      rw [decScale_encodedNative config x k hk]

/-- C9 witness: 21.5 °C encodes under `c9Config` to register 707 (70.7
°F in tenths) and decodes back to exactly 21.5 °C. -/
theorem c9_encode_decode_witness :
    decode_registers [707] c9Config = some (43/2) :=
  c9_encode_decode_roundtrip c9Config (43/2) 707 [707] rfl
    (by norm_num [encodedNative, c9Config, celsius_to_fahrenheit, divisorMult])
    (by norm_num) (by norm_num) (by simp [c9Config])
    (by
      norm_num [encode_value, c9Config, celsius_to_fahrenheit,
        divisorMult, pyRound]
      decide)

end OpenRoast
